import Mathlib

/-
Verification of the native bootstrap in
packages/app/studio/src-tauri/src/lib.rs (the `run` function).

The Rust source is shallowly embedded below.  Pure composition (the plugin
list, the two registered closures, the final `.expect`) is translated
directly from the source.  Behaviour of the host framework that is not part
of this repository (the runtime sequencing of setup hook and event loop,
the single-instance mechanism, duplicate-plugin handling) is modelled from
the spec and marked as such in the doc comments.
-/

namespace OpenDAW

/-- The capability plugins registered by `run` (lib.rs lines 8-14 and 17-27),
one constructor per plugin crate. -/
inductive Capability where
  | shell
  | dialog
  | fs
  | process
  | os
  | http
  | singleInstance
  | updater
  deriving DecidableEq, Repr

/-- The plugin name of each capability, as used by the host framework's
registry (the crate names in lib.rs). -/
def Capability.name : Capability → String
  | .shell => "shell"
  | .dialog => "dialog"
  | .fs => "fs"
  | .process => "process"
  | .os => "os"
  | .http => "http"
  | .singleInstance => "single-instance"
  | .updater => "updater"

/-- Platform component of the build mode, resolved at compile time by the
`#[cfg(desktop)]` attribute in lib.rs. -/
inductive Platform where
  | desktop
  | mobile
  deriving DecidableEq, Repr

/-- Build component of the build mode, resolved at compile time by the
`#[cfg(debug_assertions)]` attribute in lib.rs. -/
inductive Build where
  | debug
  | release
  deriving DecidableEq, Repr

/-- The compile-resolved build mode: platform times build profile. -/
structure BuildMode where
  platform : Platform
  build : Build
  deriving DecidableEq, Repr

/-- A window handle.  `focusSucceeds` records the outcome the OS would give
to a focus request on this window. -/
structure Window where
  focusSucceeds : Bool
  deriving DecidableEq, Repr

/-- The application handle: `get_webview_window` resolves a window label to
a live window, or `none` when no window with that label exists. -/
structure App where
  windows : String → Option Window

/-- `app.get_webview_window(label)` from the host framework: looks up the
window by its label. -/
def App.get_webview_window (app : App) (label : String) : Option Window :=
  app.windows label

/-- `window.set_focus()`: requests OS-level focus and reports the outcome
as a `Result`. -/
def Window.set_focus (w : Window) : Except String Unit :=
  if w.focusSucceeds then Except.ok () else Except.error "focus request failed"

/-- Observable window-level actions performed by the two closures in
lib.rs. -/
inductive Action where
  | setFocus (success : Bool)
  | openDevtools
  deriving DecidableEq, Repr

/-- The single-instance callback closure (lib.rs lines 20-25):
`if let Some(window) = app.get_webview_window("main") { let _ = window.set_focus(); }`.
The returned list is the trace of window actions; the closure has no error
path of its own, and the `Result` of `set_focus` is discarded by `let _ =`,
so the callback always completes with `ok`. -/
def singleInstanceCallback (app : App) (_args : List String) (_cwd : String) :
    Except String (List Action) :=
  match app.get_webview_window "main" with
  | some window =>
      let _ := window.set_focus
      Except.ok [Action.setFocus window.focusSucceeds]
  | none => Except.ok []

/-- The setup closure (lib.rs lines 30-38): under `#[cfg(debug_assertions)]`,
if the window labelled "main" exists, open its devtools; the closure always
returns `Ok(())`.  The compile-time gate is represented as a branch on the
constant build component, which is equivalent since the mode never changes. -/
def setupHook (mode : BuildMode) (app : App) : Except String (List Action) :=
  if mode.build = Build.debug then
    match app.get_webview_window "main" with
    | some _ => Except.ok [Action.openDevtools]
    | none => Except.ok []
  else
    Except.ok []

/-- The base plugins registered unconditionally (lib.rs lines 8-14), in
source order. -/
def basePlugins : List Capability :=
  [Capability.shell, Capability.dialog, Capability.fs,
   Capability.process, Capability.os, Capability.http]

/-- The desktop-only plugins (lib.rs lines 17-27), in source order. -/
def desktopPlugins : List Capability :=
  [Capability.singleInstance, Capability.updater]

/-- The full plugin list registered by `run`, as a function of the
compile-time platform: the base plugins, then (desktop only) the
single-instance and updater plugins (lib.rs lines 8-27). -/
def registeredPlugins (platform : Platform) : List Capability :=
  basePlugins ++ (if platform = Platform.desktop then desktopPlugins else [])

/-- The runtime environment visible to the process at startup.  The
`#[cfg(desktop)]` gate in lib.rs is compile-time and reads none of it. -/
structure RuntimeEnv where
  osName : String
  isActuallyMobileDevice : Bool
  app : App

/-- The plugin composition performed by `run` before the event loop
(lib.rs lines 4-27), as a function of the compile-time build mode and the
runtime environment.  The source decides desktop-versus-mobile purely via
`#[cfg(desktop)]`, so the environment parameter is never read. -/
def buildConfig (mode : BuildMode) (_env : RuntimeEnv) : List Capability :=
  registeredPlugins mode.platform

/-- The final process outcome of `run`: either the event loop returned
normally on application exit, or the process aborted with a panic message. -/
inductive ProcessOutcome where
  | exited
  | aborted (msg : String)
  deriving DecidableEq, Repr

/-- `.run(tauri::generate_context!()).expect("error while running tauri application")`
(lib.rs lines 40-41): `hostResult` is the `Result` returned by the host
runtime's blocking run; `expect` panics with the given message and the
error's rendering on `Err`, and returns `()` on `Ok`, so `run` itself never
returns an error value. -/
def runOutcome (hostResult : Except String Unit) : ProcessOutcome :=
  match hostResult with
  | Except.ok () => ProcessOutcome.exited
  | Except.error e =>
      ProcessOutcome.aborted ("error while running tauri application: " ++ e)

/-- Lifecycle events of `run`, in the order they occur. -/
inductive LifecycleEvent where
  | registered (c : Capability)
  | setupRan
  | eventLoopEntered
  deriving DecidableEq, Repr

/-- The lifecycle trace of `run` (lib.rs lines 4-41).  Plugin registrations
occur in source order on the builder.  Modelled from the spec: the host
runtime (external to src/) invokes the registered setup hook exactly once
after capability registration and then enters the blocking event loop. -/
def runTrace (mode : BuildMode) : List LifecycleEvent :=
  (registeredPlugins mode.platform).map LifecycleEvent.registered
    ++ [LifecycleEvent.setupRan, LifecycleEvent.eventLoopEntered]

/-- An ordered accumulation of registered capabilities (the spec's
BuilderConfig). -/
structure BuilderConfig where
  plugins : List Capability
  deriving DecidableEq, Repr

/-- Modelled from the spec: the host framework's plugin registry (not in
src/) rejects a capability whose name collides with one already registered,
failing fast with a fatal diagnostic instead of silently ignoring it. -/
def BuilderConfig.registerChecked (cfg : BuilderConfig) (c : Capability) :
    Except String BuilderConfig :=
  if c.name ∈ cfg.plugins.map Capability.name then
    Except.error ("plugin already registered: " ++ c.name)
  else
    Except.ok { plugins := cfg.plugins ++ [c] }

/-- A relaunch event delivered by the single-instance mechanism: the second
process's arguments and working directory. -/
structure RelaunchEvent where
  args : List String
  cwd : String
  deriving DecidableEq, Repr

/-- The observable outcome of launching a second process while a primary
instance holds the single-instance lock. -/
structure SecondLaunchResult where
  secondTerminated : Bool
  registeredBySecond : List Capability
  windowsCreatedBySecond : Nat
  delivered : List RelaunchEvent
  primaryCallbackResult : Except String (List Action)

/-- Modelled from the spec: the single-instance mechanism (the host
framework's OS-level lock, not in src/) makes a second process terminate
before registering any capability or creating any window, and delivers
exactly one relaunch event carrying its arguments and working directory to
the primary, which runs the registered callback (lib.rs lines 20-25). -/
def secondLaunch (primary : App) (args : List String) (cwd : String) :
    SecondLaunchResult :=
  { secondTerminated := true
    registeredBySecond := []
    windowsCreatedBySecond := 0
    delivered := [{ args := args, cwd := cwd }]
    primaryCallbackResult := singleInstanceCallback primary args cwd }

/-- C1: for every build mode the base BuilderConfig contains exactly the six
capabilities shell, dialog, fs, process, os, http in that fixed order with
no duplicates; a mobile build registers exactly this base set, and a desktop
build registers exactly the base set plus single-instance and updater
appended after it, in deterministic order. -/
theorem c1_builder_composition :
    basePlugins =
      [Capability.shell, Capability.dialog, Capability.fs,
       Capability.process, Capability.os, Capability.http] ∧
    basePlugins.Nodup ∧
    registeredPlugins Platform.mobile = basePlugins ∧
    registeredPlugins Platform.desktop =
      basePlugins ++ [Capability.singleInstance, Capability.updater] ∧
    (registeredPlugins Platform.desktop).Nodup := by
  decide

/-- C2: for every delivered relaunch event, the single-instance callback
attempts to focus the window labelled "main" when it exists, and when no
such window exists it completes as a no-op, raising no error. -/
theorem c2_relaunch_focus (app : App) (args : List String) (cwd : String) :
    (∀ w, app.get_webview_window "main" = some w →
      singleInstanceCallback app args cwd =
        Except.ok [Action.setFocus w.focusSucceeds]) ∧
    (app.get_webview_window "main" = none →
      singleInstanceCallback app args cwd = Except.ok []) := by
  constructor
  · intro w hw
    simp [singleInstanceCallback, hw]
  · intro hw
    simp [singleInstanceCallback, hw]

/-- C2 witness: with no "main" window the callback is an error-free no-op,
and with a "main" window present it attempts to focus it. -/
theorem c2_relaunch_focus_witness :
    singleInstanceCallback { windows := fun _ => none } ["--foo"] "/tmp" =
        Except.ok [] ∧
    singleInstanceCallback
        { windows := fun l => if l = "main" then some { focusSucceeds := true } else none }
        ["--foo"] "/tmp" =
      Except.ok [Action.setFocus true] :=
  ⟨(c2_relaunch_focus { windows := fun _ => none } ["--foo"] "/tmp").2 rfl,
   (c2_relaunch_focus
      { windows := fun l => if l = "main" then some { focusSucceeds := true } else none }
      ["--foo"] "/tmp").1 { focusSucceeds := true } rfl⟩

/-- C3: the setup hook opens devtools on the "main" window exactly when the
build component is debug and the window exists; otherwise it performs no
action; in every case it completes without error. -/
theorem c3_devtools_iff_debug (mode : BuildMode) (app : App) :
    setupHook mode app =
      Except.ok
        (if mode.build = Build.debug ∧ (app.get_webview_window "main").isSome
         then [Action.openDevtools] else []) := by
  rcases mode with ⟨p, b⟩
  cases b <;> cases hw : app.get_webview_window "main" <;>
    simp [setupHook, hw]

/-- C4: the entry point either exits normally when the event loop returns,
or aborts with a fatal human-readable diagnostic when the host runtime
fails; it never returns an error value to its caller. -/
theorem c4_fail_fast (hostResult : Except String Unit) :
    (hostResult = Except.ok () → runOutcome hostResult = ProcessOutcome.exited) ∧
    (∀ e, hostResult = Except.error e →
      runOutcome hostResult =
        ProcessOutcome.aborted ("error while running tauri application: " ++ e)) ∧
    (runOutcome hostResult = ProcessOutcome.exited ∨
      ∃ msg, runOutcome hostResult = ProcessOutcome.aborted msg) := by
  refine ⟨fun h => by simp [runOutcome, h], fun e h => by simp [runOutcome, h], ?_⟩
  rcases hostResult with e | a
  · exact Or.inr ⟨_, rfl⟩
  · cases a
    exact Or.inl rfl

/-- C4 witness: a failing host runtime aborts the process with the fatal
diagnostic. -/
theorem c4_fail_fast_witness :
    runOutcome (Except.error "boom") =
      ProcessOutcome.aborted ("error while running tauri application: " ++ "boom") :=
  (c4_fail_fast (Except.error "boom")).2.1 "boom" rfl

/-- C5: for every build mode, the lifecycle trace is exactly the base
registrations, then the platform-gated desktop registrations, then the
one-shot setup hook, then entry into the event loop; the setup hook occurs
exactly once and strictly before the event loop. -/
theorem c5_lifecycle_order (mode : BuildMode) :
    runTrace mode =
      (basePlugins.map LifecycleEvent.registered)
        ++ ((if mode.platform = Platform.desktop then desktopPlugins else []).map
              LifecycleEvent.registered)
        ++ [LifecycleEvent.setupRan, LifecycleEvent.eventLoopEntered] ∧
    (runTrace mode).count LifecycleEvent.setupRan = 1 ∧
    (runTrace mode).indexOf LifecycleEvent.setupRan <
      (runTrace mode).indexOf LifecycleEvent.eventLoopEntered ∧
    (runTrace mode).getLast? = some LifecycleEvent.eventLoopEntered := by
  rcases mode with ⟨p, b⟩
  cases p <;> cases b <;> decide

/-- C6: registering a capability whose name is already registered into a
BuilderConfig is rejected with a fatal diagnostic, for every capability
name: after any successful registration of a capability, registering the
same capability again fails. -/
theorem c6_duplicate_rejected (cfg cfg' : BuilderConfig) (c : Capability)
    (h : cfg.registerChecked c = Except.ok cfg') :
    cfg'.registerChecked c = Except.error ("plugin already registered: " ++ c.name) := by
  unfold BuilderConfig.registerChecked at h ⊢
  by_cases hmem : c.name ∈ cfg.plugins.map Capability.name
  · rw [if_pos hmem] at h
    exact Except.noConfusion h
  · rw [if_neg hmem] at h
    injection h with h2
    subst h2
    rw [if_pos (by simp)]

/-- C6 witness: registering the shell capability twice into the empty
BuilderConfig fails with the fatal diagnostic. -/
theorem c6_duplicate_rejected_witness :
    BuilderConfig.registerChecked { plugins := [Capability.shell] } Capability.shell =
      Except.error ("plugin already registered: " ++ Capability.shell.name) :=
  c6_duplicate_rejected { plugins := [] } { plugins := [Capability.shell] }
    Capability.shell (by simp [BuilderConfig.registerChecked])

/-- C7: a second process launched while a primary runs terminates without
registering any capability or creating any window, and the primary receives
exactly one relaunch event carrying the second process's arguments and
working directory. -/
theorem c7_second_launch (primary : App) (args : List String) (cwd : String) :
    (secondLaunch primary args cwd).secondTerminated = true ∧
    (secondLaunch primary args cwd).registeredBySecond = [] ∧
    (secondLaunch primary args cwd).windowsCreatedBySecond = 0 ∧
    (secondLaunch primary args cwd).delivered = [{ args := args, cwd := cwd }] ∧
    (secondLaunch primary args cwd).primaryCallbackResult =
      singleInstanceCallback primary args cwd :=
  ⟨rfl, rfl, rfl, rfl, rfl⟩

/-- C8: the single-instance callback neither reads nor acts on the relaunch
arguments or working directory: its result is identical for any two
argument lists and working directories, and every action it performs is a
focus attempt. -/
theorem c8_args_unconsumed (app : App) (args args2 : List String)
    (cwd cwd2 : String) :
    singleInstanceCallback app args cwd = singleInstanceCallback app args2 cwd2 ∧
    (∀ l, singleInstanceCallback app args cwd = Except.ok l →
      ∀ a ∈ l, ∃ b, a = Action.setFocus b) := by
  constructor
  · rfl
  · intro l hl a ha
    unfold singleInstanceCallback at hl
    cases hw : app.get_webview_window "main" <;> rw [hw] at hl <;>
      cases hl <;> simp at ha
    exact ⟨_, ha⟩

/-- C8 witness: with a "main" window present, the callback's sole effect is
a focus attempt, independent of the relaunch arguments. -/
theorem c8_args_unconsumed_witness :
    ∃ b, Action.setFocus true = Action.setFocus b :=
  (c8_args_unconsumed
      { windows := fun l => if l = "main" then some { focusSucceeds := true } else none }
      ["--foo"] ["--bar"] "/tmp" "/home").2
    [Action.setFocus true] rfl (Action.setFocus true) (by simp)

/-- C9: the platform gate is a pure function of the compile-time build mode
alone: for any runtime environments, the registered plugin list is the same
and equals the compile-time composition; no runtime inspection occurs. -/
theorem c9_gate_pure (mode : BuildMode) (env env2 : RuntimeEnv) :
    buildConfig mode env = buildConfig mode env2 ∧
    buildConfig mode env = registeredPlugins mode.platform :=
  ⟨rfl, rfl⟩

/-- C10: even when the "main" window exists, the outcome of the OS-level
focus request is discarded: the callback completes normally with no error
whether the focus succeeds or fails. -/
theorem c10_focus_failure_discarded (app : App) (args : List String)
    (cwd : String) (w : Window) (hw : app.get_webview_window "main" = some w) :
    singleInstanceCallback app args cwd =
      Except.ok [Action.setFocus w.focusSucceeds] := by
  simp [singleInstanceCallback, hw]

/-- C10 witness: with a "main" window whose focus request fails, the
callback still completes with `ok`. -/
theorem c10_focus_failure_discarded_witness :
    singleInstanceCallback
        { windows := fun l => if l = "main" then some { focusSucceeds := false } else none }
        [] "/" =
      Except.ok [Action.setFocus false] :=
  c10_focus_failure_discarded
    { windows := fun l => if l = "main" then some { focusSucceeds := false } else none }
    [] "/" { focusSucceeds := false } rfl

end OpenDAW
